import Mathlib

/-!
Verification of the indexify coordinator core against its specification.

The development shallowly embeds the Rust sources:
  * `src/src/scheduler/mod.rs` (the scheduler: executor removal handling and
    compute-graph invocation),
  * `src/src/server.rs` (the ingestion HTTP surface: file upload and the
    new-content stream endpoint),
  * `src/server-next/data_model/src/test_objects.rs` (the fixture graphs
    `mock_graph_a` and `mock_graph_b`).

Pure functions become Lean functions; the mutable shared state becomes explicit
state passing; fallible code returns `Except`/`Option`.  Machine integers are
modelled as `Nat` (no arithmetic in the embedded fragments overflows).  Code of
the repository that is only called from the embedded files (the data manager,
the shared-state store, the internal-api data model) is modelled from the
specification; each such definition carries a doc comment starting with
`Modelled from the spec:`.
-/

namespace Indexify

/-! ## Data model (spec section 3, and the builder calls in the sources) -/

/-- Task outcome, spec section 3: `Unknown | Success | Failed`. -/
inductive TaskOutcome where
  | Unknown
  | Success
  | Failed
deriving DecidableEq, Repr

/-- Modelled from the spec: the internal-api `Task` record.  The fields are the
ones the spec lists in section 3 together with the ones set by the
`TaskBuilder` call in the scheduler (`namespace`, `compute_graph_name`, `compute_fn_name`,
`input_data_object_id`).  `namespace` is a Lean keyword, hence `namespace_`.
Fields the builder leaves unset keep their defaults: a fresh task is
`Unknown` and unassigned. -/
structure Task where
  id : String := ""
  namespace_ : String
  compute_graph_name : String
  compute_fn_name : String
  input_data_object_id : String
  outcome : TaskOutcome := .Unknown
  assigned_executor : Option String := none
deriving DecidableEq, Repr

/-- `ComputeFn` from `test_objects.rs` / spec section 3. -/
structure ComputeFn where
  name : String
  fn_name : String
  description : String
  placement_constraints : List String := []
deriving DecidableEq, Repr

/-- `DynamicEdgeRouter` from `test_objects.rs` / spec section 3. -/
structure DynamicEdgeRouter where
  name : String
  description : String
  source_fn : String
  target_functions : List String
deriving DecidableEq, Repr

/-- `Node`: tagged variant `Compute(ComputeFn) | Router(DynamicEdgeRouter)`. -/
inductive Node where
  | Compute (f : ComputeFn)
  | Router (r : DynamicEdgeRouter)
deriving DecidableEq, Repr

/-- The `name` accessor used by the scheduler (`compute_graph.start_fn.name`). -/
def Node.name : Node → String
  | .Compute f => f.name
  | .Router r => r.name

/-- Whether a node is a `Compute` node. -/
def Node.isCompute : Node → Bool
  | .Compute _ => true
  | .Router _ => false

/-- `ComputeGraphCode` from `test_objects.rs`. -/
structure ComputeGraphCode where
  path : String
  size : Nat
  sha256_hash : String
deriving DecidableEq, Repr

/-- `ComputeGraph` from `test_objects.rs` / spec section 3.  The Rust
`HashMap<String, Node>` of nodes and `HashMap<String, Vec<String>>` of edges
are embedded as association lists (the fixtures enumerate their entries). -/
structure ComputeGraph where
  namespace_ : String
  name : String
  nodes : List (String × Node)
  edges : List (String × List String)
  description : String
  code : ComputeGraphCode
  create_at : Nat
  tomb_stoned : Bool
  start_fn : Node
deriving DecidableEq, Repr

/-- `InvokeComputeGraphPayload`: the fields the scheduler reads
(`payload.namespace`, `payload.graph_name`, `payload.data_object_id`). -/
structure InvokeComputeGraphPayload where
  namespace_ : String
  graph_name : String
  data_object_id : String
deriving DecidableEq, Repr

/-- `StateChange` as the scheduler touches it: its monotone `id`
(a `u64`, modelled as `Nat`). -/
structure StateChange where
  id : Nat
deriving DecidableEq, Repr

/-- A task-allocation plan: `task_id → executor_id` pairs (spec section 4.E). -/
abbrev TaskAllocationPlan := List (String × String)

/-! ## Shared state (modelled from the spec) -/

/-- Modelled from the spec: the slice of the `SharedState` store the embedded
scheduler handlers read and write — the task table, the graph table, the set of
committed assignments and the set of state-change ids marked processed. -/
structure SharedState where
  tasks : List Task
  compute_graphs : List ComputeGraph
  assignments : List (String × String)
  processed : List Nat
deriving DecidableEq, Repr

/-- Modelled from the spec:
`unassigned_tasks() = \x7bt : outcome = Unknown ∧ assigned_executor = None\x7d`
and is a pure function of the store (spec section 3). -/
def SharedState.unassigned_tasks (st : SharedState) : List Task :=
  st.tasks.filter fun t =>
    t.outcome == .Unknown && t.assigned_executor == none

/-- Modelled from the spec: `CommitAssignments(plan, cause_id)` writes the
assignments and marks `cause_id` processed (spec section 4.B). -/
def SharedState.commit_task_assignments (st : SharedState)
    (plan : TaskAllocationPlan) (cause_id : Nat) : SharedState :=
  { st with assignments := st.assignments ++ plan,
            processed := st.processed ++ [cause_id] }

/-- Modelled from the spec: marking change events processed sets their
`processed_at` (spec section 3); here the ids are appended to the processed
set.  The Rust call site passes an empty second vector of new changes, which
the embedding drops. -/
def SharedState.mark_change_events_as_processed (st : SharedState)
    (changes : List StateChange) : SharedState :=
  { st with processed := st.processed ++ changes.map (·.id) }

/-- Modelled from the spec: `CreateTasks(ts, cause_id)` inserts the tasks and
marks `cause_id` processed (spec section 4.B). -/
def SharedState.create_tasks (st : SharedState) (ts : List Task)
    (cause_id : Nat) : SharedState :=
  { st with tasks := st.tasks ++ ts,
            processed := st.processed ++ [cause_id] }

/-- Modelled from the spec: `state_machine.get_compute_graph(ns, name)` looks a
graph up by namespace and name; a tombstoned graph is treated as absent, since
`TombstoneGraph` guarantees that no new tasks are created for it
(spec section 4.B). -/
def SharedState.get_compute_graph (st : SharedState) (ns graph : String) :
    Option ComputeGraph :=
  match st.compute_graphs.find? fun cg =>
      cg.namespace_ == ns && cg.name == graph with
  | none => none
  | some cg => if cg.tomb_stoned then none else some cg

/-! ## Scheduler (`src/src/scheduler/mod.rs`) -/

/-- The `Scheduler` struct: the shared state together with the injected task
allocator (`TaskAllocator::allocate_tasks`, whose implementation lives outside
the embedded sources and is therefore kept abstract as a function field). -/
structure Scheduler where
  shared_state : SharedState
  task_allocator : List Task → TaskAllocationPlan

/-- `Scheduler::allocate_tasks`: delegates to the task allocator. -/
def Scheduler.allocate_tasks (s : Scheduler) (tasks : List Task) :
    TaskAllocationPlan :=
  s.task_allocator tasks

/-- `Scheduler::handle_executor_removed` (scheduler/mod.rs lines 29-43):
read the global unassigned task set, run the allocator, and either commit the
plan under the id of the change or mark the change processed when the plan is
empty.  The returned value is the resulting shared state. -/
def Scheduler.handle_executor_removed (s : Scheduler)
    (state_change : StateChange) : SharedState :=
  let tasks := s.shared_state.unassigned_tasks
  let plan := s.allocate_tasks tasks
  if !plan.isEmpty then
    s.shared_state.commit_task_assignments plan state_change.id
  else
    s.shared_state.mark_change_events_as_processed [state_change]

/-- `Scheduler::invoke_compute_graph` (scheduler/mod.rs lines 45-73): look the
graph up; when it is absent, log `compute graph not found` and return with the
state untouched; otherwise build one start-fn task and submit it via
`create_tasks` under the change id.  The second component collects the error
log lines the handler emits. -/
def Scheduler.invoke_compute_graph (s : Scheduler)
    (payload : InvokeComputeGraphPayload) (state_change_id : Nat) :
    SharedState × List String :=
  match s.shared_state.get_compute_graph payload.namespace_ payload.graph_name with
  | none =>
      (s.shared_state,
       ["compute graph not found: " ++ payload.namespace_ ++ "/" ++
         payload.graph_name])
  | some compute_graph =>
      let task : Task :=
        { namespace_ := payload.namespace_,
          compute_graph_name := payload.graph_name,
          compute_fn_name := compute_graph.start_fn.name,
          input_data_object_id := payload.data_object_id }
      (s.shared_state.create_tasks [task] state_change_id, [])

/-! ## Fixture graphs (`src/server-next/data_model/src/test_objects.rs`) -/

/-- `mock_graph_a`: three compute nodes, edges `fn_a → [fn_b, fn_c]`,
`start_fn = Compute(fn_a)`. -/
def mock_graph_a : ComputeGraph :=
  let fn_a : ComputeFn :=
    { name := "fn_a", description := "description fn_a", fn_name := "fn_a" }
  let fn_b : ComputeFn :=
    { name := "fn_b", description := "description fn_b", fn_name := "fn_b" }
  let fn_c : ComputeFn :=
    { name := "fn_c", description := "description fn_c", fn_name := "fn_c" }
  { namespace_ := "test_ns",
    name := "graph_A",
    nodes := [("fn_b", .Compute fn_b), ("fn_c", .Compute fn_c),
              ("fn_a", .Compute fn_a)],
    edges := [("fn_a", ["fn_b", "fn_c"])],
    description := "description graph_A",
    code := { path := "cg_path", size := 23, sha256_hash := "hash123" },
    create_at := 5,
    tomb_stoned := false,
    start_fn := .Compute fn_a }

/-- `mock_graph_b`: compute nodes `fn_a`, `fn_b`, `fn_c` plus the router
`router_x` with `target_functions = [fn_b, fn_c]`; edges
`fn_a → [router_x]`; `start_fn = Compute(fn_a)`. -/
def mock_graph_b : ComputeGraph :=
  let fn_a : ComputeFn :=
    { name := "fn_a", description := "description fn_a", fn_name := "fn_a" }
  let router_x : DynamicEdgeRouter :=
    { name := "router_x", description := "description router_x",
      source_fn := "fn_a", target_functions := ["fn_b", "fn_c"] }
  let fn_b : ComputeFn :=
    { name := "fn_b", description := "description fn_b", fn_name := "fn_b" }
  let fn_c : ComputeFn :=
    { name := "fn_c", description := "description fn_c", fn_name := "fn_c" }
  { namespace_ := "test_ns",
    name := "graph_B",
    nodes := [("fn_b", .Compute fn_b), ("fn_c", .Compute fn_c),
              ("router_x", .Router router_x), ("fn_a", .Compute fn_a)],
    edges := [("fn_a", ["router_x"])],
    description := "description graph_B",
    code := { path := "cg_path", size := 23, sha256_hash := "hash123" },
    create_at := 5,
    tomb_stoned := false,
    start_fn := .Compute fn_a }

/-! ## Compute-graph invariants (spec section 3) -/

/-- The node names of a graph (the keys of its `nodes` map). -/
def ComputeGraph.nodeNames (g : ComputeGraph) : List String :=
  g.nodes.map (·.fst)

/-- Invariant (i): every edge endpoint exists in `nodes`. -/
def ComputeGraph.edgeEndpointsOk (g : ComputeGraph) : Bool :=
  g.edges.all fun e =>
    g.nodeNames.contains e.fst && e.snd.all fun t => g.nodeNames.contains t

/-- Static successors of a node name: the adjacency entry of `edges`. -/
def ComputeGraph.successors (g : ComputeGraph) (n : String) : List String :=
  ((g.edges.find? fun e => e.fst == n).map (·.snd)).getD []

/-- One breadth step of reachability: the frontier together with every static
successor of its members, deduplicated. -/
def ComputeGraph.reachStep (g : ComputeGraph) (s : List String) : List String :=
  (s ++ s.flatMap g.successors).dedup

/-- A bound on the length of any simple path in the graph representation:
the number of names occurring anywhere in it. -/
def ComputeGraph.nameBound (g : ComputeGraph) : Nat :=
  (g.nodeNames ++ g.edges.flatMap fun e => e.fst :: e.snd).length + 1

/-- Names reachable from a starting set via static edges (saturated by
iterating `reachStep` past the longest possible simple path). -/
def ComputeGraph.reachableFrom (g : ComputeGraph) (start : List String) :
    List String :=
  (List.range g.nameBound).foldl (fun s _ => g.reachStep s) start

/-- Invariant (ii): the subgraph reachable from `start` is acyclic — no name
reachable from `start` is reachable again from one of its own successors. -/
def ComputeGraph.acyclicFrom (g : ComputeGraph) (start : String) : Bool :=
  (g.reachableFrom [start]).all fun n =>
    !(g.reachableFrom (g.successors n)).contains n

/-- Invariant (iii): `start_fn ∈ nodes` — the nodes map has an entry whose key
is the name of the start node and whose value is the start node itself. -/
def ComputeGraph.startFnInNodes (g : ComputeGraph) : Bool :=
  (g.nodes.find? fun e => e.fst == g.start_fn.name)
    == some (g.start_fn.name, g.start_fn)

/-- Invariant (iv): node names are unique within the graph. -/
def ComputeGraph.namesUnique (g : ComputeGraph) : Bool :=
  g.nodeNames.dedup == g.nodeNames

/-- All the fixture invariants of the claim, bundled. -/
def ComputeGraph.fixtureInvariants (g : ComputeGraph) : Bool :=
  g.edgeEndpointsOk && g.acyclicFrom g.start_fn.name && g.startFnInNodes &&
    g.namesUnique && g.start_fn.isCompute

/-! ## Content stream endpoint (`src/src/server.rs` lines 945-998) -/

/-- `u64::MAX`, modelled on `Nat`. -/
def U64_MAX : Nat := 2 ^ 64 - 1

/-- `NewContentStreamStart` (from the api module; its two variants are the ones
the server matches on): `FromLast | FromOffset(ContentOffset)`, the offset a
`u64` modelled as `Nat`. -/
inductive NewContentStreamStart where
  | FromLast
  | FromOffset (offset : Nat)
deriving DecidableEq, Repr

/-- The `ContentStreamRequest` the server sends to the coordinator. -/
structure ContentStreamRequest where
  change_offset : Nat
  namespace_ : String
  extraction_graph : String
  extraction_policy : String
deriving DecidableEq, Repr

/-- `get_new_content_stream` (server.rs lines 945-965), reduced to the request
it builds for the coordinator: `change_offset` is `u64::MAX` for `FromLast`
and the given offset for `FromOffset`. -/
def get_new_content_stream (ns extraction_graph extraction_policy : String)
    (start : NewContentStreamStart) : ContentStreamRequest :=
  { change_offset :=
      match start with
      | .FromLast => U64_MAX
      | .FromOffset offset => offset,
    namespace_ := ns,
    extraction_graph := extraction_graph,
    extraction_policy := extraction_policy }

/-- Rust `str::parse::<u64>()`: an optional leading `+`, then at least one
decimal digit, and the value must fit in a `u64` (any overflow during
accumulation makes the final value exceed `u64::MAX`, so the final bound is
equivalent). -/
def parseU64 (s : String) : Option Nat :=
  let cs :=
    match s.data with
    | '+' :: rest => rest
    | cs => cs
  if cs.isEmpty then none
  else if cs.all Char.isDigit then
    let v := cs.foldl (fun a c => a * 10 + (c.toNat - 48)) 0
    if v ≤ U64_MAX then some v else none
  else none

/-- `HashMap::get` on the query parameters, embedded as association-list
lookup. -/
def getQueryParam (params : List (String × String)) (key : String) :
    Option String :=
  (params.find? fun p => p.fst == key).map (·.snd)

/-- The start selection of `new_content_stream` (server.rs lines 986-991):
`params.get("offset").and_then(|s| s.parse().ok())`, then `Some → FromOffset`
and `None → FromLast`.  Total: a malformed offset falls back to `FromLast`
rather than producing an error response. -/
def new_content_stream_start (params : List (String × String)) :
    NewContentStreamStart :=
  match (getQueryParam params "offset").bind parseU64 with
  | some offset => .FromOffset offset
  | none => .FromLast

/-! ## Namespace creation (`src/src/server.rs` lines 268-282) -/

/-- Modelled from the spec: `DataManager::create_namespace` applies
`CreateNamespace(n)`, which inserts the namespace if absent and is idempotent
(spec sections 4.B and 8; the call site comments the same).  The namespace
table is its list of names. -/
def create_namespace (namespaces : List String) (n : String) : List String :=
  if namespaces.contains n then namespaces else namespaces ++ [n]

/-! ## File upload (`src/src/server.rs` lines 769-943)

The upload handler interleaves repository logic with calls into external
crates and into the data manager (whose code is not among the embedded
sources).  The external outcomes are part of the input: each multipart field
carries the result of its blob write / JSON parse, and an `UploadEnv` record
carries the outcomes of mime parsing, label conversion, the clock and the
metadata insert.  The control flow of the handler itself — the order of the checks,
the effects it accumulates, and the clean-up in the outer wrapper — is
embedded faithfully. -/

/-- `UploadFileQueryParams` (server.rs line 727): the optional caller id. -/
structure UploadFileQueryParams where
  id : Option String
deriving DecidableEq, Repr

/-- An `IndexifyAPIError`: HTTP status code plus message. -/
structure ApiError where
  status : Nat
  message : String
deriving DecidableEq, Repr

/-- `StatusCode::BAD_REQUEST`. -/
def BAD_REQUEST : Nat := 400

/-- `StatusCode::INTERNAL_SERVER_ERROR`. -/
def INTERNAL_SERVER_ERROR : Nat := 500

deriving instance DecidableEq for Except

/-- The result of a successful `write_stream` blob write. -/
structure WriteResult where
  url : String
  file_name : String
  size_bytes : Nat
  hash : String
deriving DecidableEq, Repr

/-- A multipart field as the handler distinguishes them: a file part (carrying
the outcome of its blob-store write) or a form part (carrying the outcome of
parsing its text as a JSON label map; JSON values are modelled as strings). -/
inductive MultipartField where
  | file (file_name : String) (write : Except String WriteResult)
  | form (name : String) (parsed : Except String (List (String × String)))
deriving DecidableEq, Repr

/-- Generic `HashMap::get`, embedded as association-list lookup. -/
def hashMapGet {α : Type} (m : List (String × α)) (key : String) : Option α :=
  (m.find? fun p => p.fst == key).map (·.snd)

/-- A lowercase hexadecimal digit. -/
def isLowerHexDigit (c : Char) : Bool :=
  c.isDigit || ('a' ≤ c && c ≤ 'f')

/-- Modelled from the spec: `DataManager::is_hex_string` validates a content
id; the spec states "IDs are 16-char lowercase hex" (section 3). -/
def is_hex_string (s : String) : Bool :=
  s.length == 16 && s.data.all isLowerHexDigit

/-- The lowercase hex digit for a value below 16. -/
def hexDigitChar (n : Nat) : Char :=
  if n < 10 then Char.ofNat (48 + n) else Char.ofNat (87 + n % 16)

/-- Modelled from the spec: `DataManager::make_id` generates a fresh content
id — "IDs are 16-char lowercase hex" (section 3).  The randomness source is
the explicit seed. -/
def make_id (seed : Nat) : String :=
  String.mk ((List.range 16).map fun i => hexDigitChar (seed / 16 ^ i % 16))

/-- The stored/created content metadata record (the fields the handler
constructs at server.rs lines 870-886; labels are kept in their pre-prost
form, JSON values modelled as strings). -/
structure ContentMetadata where
  id : String
  file_name : String
  storage_url : String
  parent_id : String
  root_content_id : String
  created_at : Nat
  mime : String
  namespace_ : String
  labels : List (String × String)
  source : String
  size_bytes : Nat
  hash : String
  extraction_graph_names : List String
deriving DecidableEq, Repr

/-- The server-side state the upload handler consults: the stored content
metadata. -/
structure ServerState where
  contents : List ContentMetadata
deriving DecidableEq, Repr

/-- Modelled from the spec: `DataManager::get_content_metadata(ns, ids)`
returns the stored content records of the namespace whose ids are among
`ids`. -/
def get_content_metadata (st : ServerState) (ns : String)
    (ids : List String) : List ContentMetadata :=
  st.contents.filter fun c => c.namespace_ == ns && ids.contains c.id

/-- Outcomes of the external calls the handler makes after the multipart
loop: `Mime::from_str`, `convert_map_serde_to_prost_json`, `SystemTime::now`,
`DataManager::create_content_metadata`, and the seed for
`DataManager::make_id`. -/
structure UploadEnv where
  seed : Nat
  mime_from_str : String → Option String
  mime_guess_from_ext : String → String
  labels_convert_ok : List (String × String) → Bool
  now : Option Nat
  create_ok : ContentMetadata → Bool

/-- `Path::new(name).extension()`: the portion after the final embedded dot,
empty when there is none (a lone leading dot does not count). -/
def extOf (file_name : String) : String :=
  match file_name.splitOn "." with
  | [] => ""
  | [_] => ""
  | ["", _] => ""
  | parts => parts.getLastD ""

/-- The mutable locals of the multipart loop, together with the blob-write
effect trace. -/
structure UploadLoopAcc where
  write_result : Option WriteResult := none
  url : String := ""
  labels : List (String × String) := []
  ext : String := ""
  blobs_written : List String := []
deriving DecidableEq, Repr

/-- The multipart loop of `upload_file_inner` (server.rs lines 802-851): a
second file field is rejected, a failed blob write or label parse aborts with
`BAD_REQUEST`, a successful write records the blob and publishes its URL into
the outer `url` variable, and non-label form fields are skipped.  An early
return carries the locals as mutated so far. -/
def upload_loop :
    List MultipartField → UploadLoopAcc →
    Except (ApiError × UploadLoopAcc) UploadLoopAcc
  | [], acc => .ok acc
  | .file file_name write :: rest, acc =>
      if acc.write_result.isSome then
        .error (⟨BAD_REQUEST, "multiple files provided"⟩, acc)
      else
        let acc := { acc with ext := extOf file_name }
        match write with
        | .error e =>
            .error (⟨BAD_REQUEST, "failed to upload file: " ++ e⟩, acc)
        | .ok w =>
            upload_loop rest
              { acc with write_result := some w, url := w.url,
                         blobs_written := acc.blobs_written ++ [w.url] }
  | .form name parsed :: rest, acc =>
      if name != "labels" then upload_loop rest acc
      else
        match parsed with
        | .error e =>
            .error (⟨BAD_REQUEST, "failed to upload file: " ++ e⟩, acc)
        | .ok ls => upload_loop rest { acc with labels := ls }

/-- The mime resolution of server.rs lines 853-861: an explicit `mime_type`
label must parse (else `BAD_REQUEST, invalid mime type`); otherwise the mime
is guessed from the file extension. -/
def resolve_mime (env : UploadEnv) (labels : List (String × String))
    (ext : String) : Except ApiError String :=
  match hashMapGet labels "mime_type" with
  | some v =>
      match env.mime_from_str v with
      | some m => .ok m
      | none => .error ⟨BAD_REQUEST, "invalid mime type"⟩
  | none => .ok (env.mime_guess_from_ext ext)

/-- The full observable outcome of `upload_file_inner`: the HTTP result (ok
carries the response content id), the final value of the shared `url`
variable, and the blob-write and metadata-create effect traces. -/
structure UploadOutcome where
  result : Except ApiError String
  url : String
  blobs_written : List String
  contents_created : List ContentMetadata
deriving DecidableEq, Repr

/-- `upload_file_inner` (server.rs lines 769-909): id defaulting and format
check, duplicate-id check, the multipart loop, then mime/label/time
resolution, metadata construction and the create call. -/
def upload_file_inner (st : ServerState) (env : UploadEnv)
    (namespace_ extraction_graph : String) (params : UploadFileQueryParams)
    (files : List MultipartField) : UploadOutcome :=
  let id := params.id.getD (make_id env.seed)
  if !is_hex_string id then
    { result := .error ⟨BAD_REQUEST, "Invalid ID format, ID must be a hex string"⟩,
      url := "", blobs_written := [], contents_created := [] }
  else
    let retrieved := get_content_metadata st namespace_ [id]
    if !retrieved.isEmpty then
      { result := .error ⟨BAD_REQUEST, "content with the provided id already exists"⟩,
        url := "", blobs_written := [], contents_created := [] }
    else
      match upload_loop files {} with
      | .error (e, acc) =>
          { result := .error e, url := acc.url,
            blobs_written := acc.blobs_written, contents_created := [] }
      | .ok acc =>
          match acc.write_result with
          | none =>
              { result := .error ⟨BAD_REQUEST, "no file provided"⟩,
                url := acc.url, blobs_written := acc.blobs_written,
                contents_created := [] }
          | some w =>
              match resolve_mime env acc.labels acc.ext with
              | .error e =>
                  { result := .error e, url := acc.url,
                    blobs_written := acc.blobs_written, contents_created := [] }
              | .ok content_mime =>
                  if !env.labels_convert_ok acc.labels then
                    { result := .error ⟨BAD_REQUEST, "invalid labels"⟩,
                      url := acc.url, blobs_written := acc.blobs_written,
                      contents_created := [] }
                  else
                    match env.now with
                    | none =>
                        { result := .error ⟨INTERNAL_SERVER_ERROR, "invalid time"⟩,
                          url := acc.url, blobs_written := acc.blobs_written,
                          contents_created := [] }
                    | some current_ts_secs =>
                        let content_metadata : ContentMetadata :=
                          { id := id, file_name := w.file_name,
                            storage_url := w.url, parent_id := "",
                            root_content_id := "",
                            created_at := current_ts_secs,
                            mime := content_mime, namespace_ := namespace_,
                            labels := acc.labels, source := "",
                            size_bytes := w.size_bytes, hash := w.hash,
                            extraction_graph_names := [extraction_graph] }
                        if !env.create_ok content_metadata then
                          { result := .error ⟨BAD_REQUEST, "failed to create content for file"⟩,
                            url := acc.url, blobs_written := acc.blobs_written,
                            contents_created := [] }
                        else
                          { result := .ok id, url := acc.url,
                            blobs_written := acc.blobs_written,
                            contents_created := [content_metadata] }

/-- The outcome of the outer handler: the inner outcome plus the blob deletes
the clean-up attempted. -/
structure UploadResult where
  outcome : UploadOutcome
  deleted : List String
deriving DecidableEq, Repr

/-- `upload_file` (server.rs lines 929-943): run the inner handler; when it
failed and the shared `url` is non-empty, attempt to delete the written
blob. -/
def upload_file (st : ServerState) (env : UploadEnv)
    (namespace_ extraction_graph : String) (params : UploadFileQueryParams)
    (files : List MultipartField) : UploadResult :=
  let res := upload_file_inner st env namespace_ extraction_graph params files
  { outcome := res,
    deleted :=
      if !res.result.isOk && res.url != "" then [res.url] else [] }

/-! ## Concrete fixtures for the witnesses and the counterexample -/

/-- A concrete scheduler for the C1 witness: one unassigned task, an allocator
that places every task on `exec2`. -/
def schedOneTask : Scheduler :=
  { shared_state :=
      { tasks := [{ id := "t1", namespace_ := "ns", compute_graph_name := "g",
                    compute_fn_name := "f", input_data_object_id := "c0" }],
        compute_graphs := [], assignments := [], processed := [] },
    task_allocator := fun tasks => tasks.map fun t => (t.id, "exec2") }

/-- A concrete scheduler with no graphs at all, for the C2 counterexample and
witness. -/
def schedNoGraphs : Scheduler :=
  { shared_state :=
      { tasks := [], compute_graphs := [], assignments := [], processed := [] },
    task_allocator := fun _ => [] }

/-- A concrete invocation payload naming a graph that does not exist. -/
def payloadMissingGraph : InvokeComputeGraphPayload :=
  { namespace_ := "test_ns", graph_name := "graph_A", data_object_id := "c0" }

/-- A concrete scheduler holding `mock_graph_a`, for the C3 witness. -/
def schedGraphA : Scheduler :=
  { shared_state :=
      { tasks := [], compute_graphs := [mock_graph_a], assignments := [],
        processed := [] },
    task_allocator := fun _ => [] }

/-- Any hexadecimal digit (either case), the reading of "hex string" in the
claim being settled. -/
def isHexDigitChar (c : Char) : Bool :=
  c.isDigit || ('a' ≤ c && c ≤ 'f') || ('A' ≤ c && c ≤ 'F')

/-- A shared default environment for the upload witnesses. -/
def envDefault : UploadEnv :=
  { seed := 0,
    mime_from_str := fun _ => none,
    mime_guess_from_ext := fun _ => "application/octet-stream",
    labels_convert_ok := fun _ => true,
    now := some 0,
    create_ok := fun _ => true }

/-- A server state with no stored content. -/
def stEmpty : ServerState := { contents := [] }

/-- A stored content record, for the C5 witness. -/
def contentExisting : ContentMetadata :=
  { id := "00112233aabbccdd", file_name := "f", storage_url := "u",
    parent_id := "", root_content_id := "", created_at := 0,
    mime := "text/plain", namespace_ := "ns1", labels := [], source := "",
    size_bytes := 1, hash := "h", extraction_graph_names := ["g"] }

/-- A server state already holding `contentExisting`. -/
def stWithContent : ServerState := { contents := [contentExisting] }

/-- A single successfully-written file field, for the C6 witness. -/
def filesOne : List MultipartField :=
  [.file "a.txt" (.ok { url := "u1", file_name := "a.txt", size_bytes := 3,
                        hash := "h1" })]

/-- Two file fields, both with successful writes; the handler rejects the
second one after the first blob is already written (C9 witness input). -/
def filesTwo : List MultipartField :=
  [.file "a.txt" (.ok { url := "u1", file_name := "a.txt", size_bytes := 3,
                        hash := "h1" }),
   .file "b.txt" (.ok { url := "u2", file_name := "b.txt", size_bytes := 4,
                        hash := "h2" })]

/-! ## Theorems -/

/-- C4: the fixture graphs `mock_graph_a` and `mock_graph_b` each satisfy the
compute-graph invariants — every edge endpoint names an existing node, the
subgraph reachable from `start_fn` is acyclic, `start_fn` is among the nodes,
node names are unique within the graph, and `start_fn` is a `Compute` node,
never a `Router`. -/
theorem mock_graphs_satisfy_invariants :
    mock_graph_a.edgeEndpointsOk = true ∧
    mock_graph_a.acyclicFrom mock_graph_a.start_fn.name = true ∧
    mock_graph_a.startFnInNodes = true ∧
    mock_graph_a.namesUnique = true ∧
    mock_graph_a.start_fn.isCompute = true ∧
    mock_graph_b.edgeEndpointsOk = true ∧
    mock_graph_b.acyclicFrom mock_graph_b.start_fn.name = true ∧
    mock_graph_b.startFnInNodes = true ∧
    mock_graph_b.namesUnique = true ∧
    mock_graph_b.start_fn.isCompute = true :=
  ⟨rfl, rfl, rfl, rfl, rfl, rfl, rfl, rfl, rfl, rfl⟩

/-- C7: the request `new_content_stream` sends to the coordinator carries
`change_offset = k` when the subscription starts `FromOffset(k)` and
`change_offset = u64::MAX` when it starts `FromLast`. -/
theorem content_stream_change_offset (ns graph policy : String) (k : Nat) :
    (get_new_content_stream ns graph policy (.FromOffset k)).change_offset = k ∧
    (get_new_content_stream ns graph policy .FromLast).change_offset = U64_MAX :=
  ⟨rfl, rfl⟩

/-- C8: `CreateNamespace(n)` is idempotent — applying `create_namespace` twice
with the same name yields the same namespace table as applying it once. -/
theorem create_namespace_idempotent (namespaces : List String) (n : String) :
    create_namespace (create_namespace namespaces n) n =
      create_namespace namespaces n := by
  unfold create_namespace
  by_cases h : n ∈ namespaces
  · simp [h]
  · simp [h]

/-- C10: the new-content-stream endpoint starts `FromLast` when the `offset`
query parameter is absent or does not parse as a `u64`, and starts
`FromOffset(k)` exactly when the parameter parses to `k`; the start selection
is total, so a malformed offset never produces an error response. -/
theorem new_content_stream_offset_fallback (params : List (String × String)) :
    (getQueryParam params "offset" = none →
        new_content_stream_start params = .FromLast) ∧
    (∀ s, getQueryParam params "offset" = some s → parseU64 s = none →
        new_content_stream_start params = .FromLast) ∧
    (∀ k, new_content_stream_start params = .FromOffset k ↔
        ∃ s, getQueryParam params "offset" = some s ∧ parseU64 s = some k) := by
  refine ⟨?_, ?_, ?_⟩
  · intro h
    simp [new_content_stream_start, h]
  · intro s hs hp
    simp [new_content_stream_start, hs, hp]
  · intro k
    constructor
    · intro h
      unfold new_content_stream_start at h
      cases ho : getQueryParam params "offset" with
      | none => rw [ho] at h; simp at h
      | some s =>
          rw [ho] at h
          cases hp : parseU64 s with
          | none => rw [Option.some_bind, hp] at h; simp at h
          | some m =>
              rw [Option.some_bind, hp] at h
              simp at h
              exact ⟨s, rfl, by rw [hp, h]⟩
    · rintro ⟨s, hs, hp⟩
      simp [new_content_stream_start, hs, hp]

/-- Witness for C10 at a concrete malformed offset. -/
theorem new_content_stream_offset_fallback_holds :
    new_content_stream_start [("offset", "12x")] = .FromLast :=
  (new_content_stream_offset_fallback [("offset", "12x")]).2.1 "12x" rfl rfl

/-- C1: `handle_executor_removed` computes the global set of unassigned tasks
— every task of the store with outcome `Unknown` and no assigned executor,
regardless of which executor the change removed — hands that set to the
allocator, and then: when the resulting plan is non-empty it commits the
assignments and marks the change id processed; when the plan is empty it marks
the change processed and commits no assignment.  Tasks are untouched either
way. -/
theorem handle_executor_removed_reallocates (s : Scheduler)
    (change : StateChange) :
    (∀ t ∈ s.shared_state.tasks,
        t.outcome = .Unknown → t.assigned_executor = none →
          t ∈ s.shared_state.unassigned_tasks) ∧
    (∀ t ∈ s.shared_state.unassigned_tasks,
        t ∈ s.shared_state.tasks ∧ t.outcome = .Unknown ∧
          t.assigned_executor = none) ∧
    (s.task_allocator s.shared_state.unassigned_tasks ≠ [] →
        (s.handle_executor_removed change).assignments =
            s.shared_state.assignments ++
              s.task_allocator s.shared_state.unassigned_tasks ∧
        (s.handle_executor_removed change).processed =
            s.shared_state.processed ++ [change.id] ∧
        (s.handle_executor_removed change).tasks = s.shared_state.tasks) ∧
    (s.task_allocator s.shared_state.unassigned_tasks = [] →
        (s.handle_executor_removed change).assignments =
            s.shared_state.assignments ∧
        (s.handle_executor_removed change).processed =
            s.shared_state.processed ++ [change.id] ∧
        (s.handle_executor_removed change).tasks = s.shared_state.tasks) := by
  refine ⟨?_, ?_, ?_, ?_⟩
  · intro t ht ho ha
    unfold SharedState.unassigned_tasks
    refine List.mem_filter.mpr ⟨ht, ?_⟩
    simp [ho, ha]
  · intro t ht
    unfold SharedState.unassigned_tasks at ht
    obtain ⟨htasks, hcond⟩ := List.mem_filter.mp ht
    simp only [Bool.and_eq_true, beq_iff_eq] at hcond
    exact ⟨htasks, hcond.1, hcond.2⟩
  · intro hplan
    unfold Scheduler.handle_executor_removed Scheduler.allocate_tasks
    rw [if_pos]
    · exact ⟨rfl, rfl, rfl⟩
    · simp [List.isEmpty_iff, hplan]
  · intro hplan
    unfold Scheduler.handle_executor_removed Scheduler.allocate_tasks
    rw [if_neg]
    · exact ⟨rfl, rfl, rfl⟩
    · simp [List.isEmpty_iff, hplan]

/-- Witness for C1 at a concrete scheduler and change. -/
theorem handle_executor_removed_reallocates_holds :
    (schedOneTask.handle_executor_removed ⟨9⟩).assignments = [("t1", "exec2")] ∧
    (schedOneTask.handle_executor_removed ⟨9⟩).processed = [9] := by
  have h :=
    (handle_executor_removed_reallocates schedOneTask ⟨9⟩).2.2.1 (by decide)
  exact ⟨by simpa using h.1, by simpa using h.2.1⟩

/-- C2, counterexample: at a concrete `InvokeComputeGraph` change (id 7) whose
graph is missing, `invoke_compute_graph` logs and creates no task, but the
change id is NOT among the processed ids afterwards — the handler returns
without marking the change processed, contrary to the claim. -/
theorem invoke_missing_graph_not_marked_processed :
    (schedNoGraphs.invoke_compute_graph payloadMissingGraph 7).fst.processed.contains 7
        = false ∧
    (schedNoGraphs.invoke_compute_graph payloadMissingGraph 7).fst.tasks = [] ∧
    (schedNoGraphs.invoke_compute_graph payloadMissingGraph 7).snd =
        ["compute graph not found: test_ns/graph_A"] :=
  ⟨rfl, rfl, rfl⟩

/-- C2, amended: for every `InvokeComputeGraph` state change whose referenced
compute graph is missing or tombstoned, the scheduler logs the condition and
returns successfully, creating no task; the shared state — including the set
of processed change ids — is left unchanged by this handler. -/
theorem invoke_missing_graph_logs_and_creates_nothing (s : Scheduler)
    (payload : InvokeComputeGraphPayload) (state_change_id : Nat)
    (h : s.shared_state.get_compute_graph payload.namespace_ payload.graph_name
          = none) :
    (s.invoke_compute_graph payload state_change_id).fst = s.shared_state ∧
    (s.invoke_compute_graph payload state_change_id).snd =
      ["compute graph not found: " ++ payload.namespace_ ++ "/" ++
        payload.graph_name] := by
  unfold Scheduler.invoke_compute_graph
  rw [h]
  exact ⟨rfl, rfl⟩

/-- Witness for the amended C2 at a concrete scheduler and payload. -/
theorem invoke_missing_graph_logs_and_creates_nothing_holds :
    (schedNoGraphs.invoke_compute_graph payloadMissingGraph 9).fst =
        schedNoGraphs.shared_state ∧
    (schedNoGraphs.invoke_compute_graph payloadMissingGraph 9).snd =
        ["compute graph not found: " ++ "test_ns" ++ "/" ++ "graph_A"] :=
  invoke_missing_graph_logs_and_creates_nothing schedNoGraphs
    payloadMissingGraph 9 rfl

/-- C3: when the referenced compute graph exists, `invoke_compute_graph`
submits exactly one task; its `compute_fn_name` is the name of the
`start_fn` of the graph, its input data object id is the ingested content id
of the payload
directly, and it carries no parent content relationship (the task record the
builder produces sets only namespace, graph, fn and input; it is `Unknown`
and unassigned). -/
theorem invoke_compute_graph_creates_start_task (s : Scheduler)
    (payload : InvokeComputeGraphPayload) (state_change_id : Nat)
    (g : ComputeGraph)
    (h : s.shared_state.get_compute_graph payload.namespace_ payload.graph_name
          = some g) :
    (s.invoke_compute_graph payload state_change_id).fst.tasks =
      s.shared_state.tasks ++
        [{ namespace_ := payload.namespace_,
           compute_graph_name := payload.graph_name,
           compute_fn_name := g.start_fn.name,
           input_data_object_id := payload.data_object_id }] := by
  unfold Scheduler.invoke_compute_graph
  rw [h]
  rfl

/-- Witness for C3: invoking `graph_A` over content `c0` creates exactly the
start-fn task `fn_a` with input `c0`. -/
theorem invoke_compute_graph_creates_start_task_holds :
    (schedGraphA.invoke_compute_graph
        { namespace_ := "test_ns", graph_name := "graph_A",
          data_object_id := "c0" } 3).fst.tasks =
      [{ id := "", namespace_ := "test_ns", compute_graph_name := "graph_A",
         compute_fn_name := "fn_a", input_data_object_id := "c0",
         outcome := .Unknown, assigned_executor := none }] := by
  have h := invoke_compute_graph_creates_start_task schedGraphA
    { namespace_ := "test_ns", graph_name := "graph_A",
      data_object_id := "c0" } 3 mock_graph_a rfl
  simpa using h

lemma isLowerHexDigit_hexDigitChar (m : Nat) (h : m < 16) :
    isLowerHexDigit (hexDigitChar m) = true := by
  interval_cases m <;> decide

lemma isHexDigitChar_of_isLowerHexDigit (c : Char)
    (h : isLowerHexDigit c = true) : isHexDigitChar c = true := by
  simp only [isLowerHexDigit, Bool.or_eq_true, Bool.and_eq_true] at h
  simp only [isHexDigitChar, Bool.or_eq_true, Bool.and_eq_true]
  tauto

/-- C5: an upload whose caller-provided id collides with content already
stored in the namespace is rejected with `BAD_REQUEST`; no blob is written,
no content record is created, and no blob URL is published. -/
theorem upload_rejects_existing_id (st : ServerState) (env : UploadEnv)
    (ns eg id : String) (files : List MultipartField)
    (h : ∃ c ∈ st.contents, c.namespace_ = ns ∧ c.id = id) :
    (∃ msg, (upload_file_inner st env ns eg ⟨some id⟩ files).result =
        .error ⟨BAD_REQUEST, msg⟩) ∧
    (upload_file_inner st env ns eg ⟨some id⟩ files).url = "" ∧
    (upload_file_inner st env ns eg ⟨some id⟩ files).blobs_written = [] ∧
    (upload_file_inner st env ns eg ⟨some id⟩ files).contents_created = [] := by
  obtain ⟨c, hc, hns, hid⟩ := h
  unfold upload_file_inner
  simp only [Option.getD_some]
  by_cases hx : is_hex_string id = true
  · have hmem : c ∈ get_content_metadata st ns [id] := by
      unfold get_content_metadata
      refine List.mem_filter.mpr ⟨hc, ?_⟩
      simp [hns, hid]
    have hne : get_content_metadata st ns [id] ≠ [] :=
      List.ne_nil_of_mem hmem
    have hEmpty : (get_content_metadata st ns [id]).isEmpty = false := by
      cases hl : get_content_metadata st ns [id] with
      | nil => exact absurd hl hne
      | cons a tl => rfl
    rw [hx]
    simp only [Bool.not_true, Bool.false_eq_true, if_false, hEmpty,
      Bool.not_false, if_true]
    refine ⟨⟨_, rfl⟩, ?_, ?_, ?_⟩ <;> first | rfl | trivial
  · have hx2 : is_hex_string id = false := by simpa using hx
    rw [hx2]
    simp only [Bool.not_false, if_true]
    refine ⟨⟨_, rfl⟩, ?_, ?_, ?_⟩ <;> first | rfl | trivial

/-- Witness for C5 at a concrete store and colliding id. -/
theorem upload_rejects_existing_id_holds :
    (∃ msg, (upload_file_inner stWithContent envDefault "ns1" "g"
        ⟨some "00112233aabbccdd"⟩ []).result = .error ⟨BAD_REQUEST, msg⟩) ∧
    (upload_file_inner stWithContent envDefault "ns1" "g"
        ⟨some "00112233aabbccdd"⟩ []).url = "" ∧
    (upload_file_inner stWithContent envDefault "ns1" "g"
        ⟨some "00112233aabbccdd"⟩ []).blobs_written = [] ∧
    (upload_file_inner stWithContent envDefault "ns1" "g"
        ⟨some "00112233aabbccdd"⟩ []).contents_created = [] :=
  upload_rejects_existing_id stWithContent envDefault "ns1" "g"
    "00112233aabbccdd" [] ⟨contentExisting, by simp [stWithContent], rfl, rfl⟩

/-- C6: content ids are 16-character lowercase hex — generated ids have that
shape, a caller-provided id containing a non-hex character is rejected with
`BAD_REQUEST` before any blob is written or any content metadata is created,
and any id the handler accepts passes the id-format validation. -/
theorem content_id_format_enforced (seed : Nat) (st : ServerState)
    (env : UploadEnv) (ns eg id : String) (params : UploadFileQueryParams)
    (files : List MultipartField) :
    ((make_id seed).length = 16 ∧
      (make_id seed).data.all isLowerHexDigit = true) ∧
    (id.data.all isHexDigitChar = false →
      (upload_file_inner st env ns eg ⟨some id⟩ files).result =
          .error ⟨BAD_REQUEST, "Invalid ID format, ID must be a hex string"⟩ ∧
      (upload_file_inner st env ns eg ⟨some id⟩ files).url = "" ∧
      (upload_file_inner st env ns eg ⟨some id⟩ files).blobs_written = [] ∧
      (upload_file_inner st env ns eg ⟨some id⟩ files).contents_created = []) ∧
    (∀ cid, (upload_file_inner st env ns eg params files).result = .ok cid →
      is_hex_string cid = true) := by
  refine ⟨⟨?_, ?_⟩, ?_, ?_⟩
  · simp [make_id, String.length]
  · show ((List.range 16).map fun i =>
        hexDigitChar (seed / 16 ^ i % 16)).all isLowerHexDigit = true
    refine List.all_eq_true.mpr ?_
    intro c hc
    obtain ⟨i, _, rfl⟩ := List.mem_map.mp hc
    exact isLowerHexDigit_hexDigitChar _ (Nat.mod_lt _ (by norm_num))
  · intro hAll
    have hx : is_hex_string id = false := by
      unfold is_hex_string
      cases hAllL : id.data.all isLowerHexDigit with
      | false => simp [hAllL]
      | true =>
          exfalso
          have hAllH : id.data.all isHexDigitChar = true := by
            refine List.all_eq_true.mpr ?_
            intro c hc
            exact isHexDigitChar_of_isLowerHexDigit c
              (List.all_eq_true.mp hAllL c hc)
          rw [hAllH] at hAll
          exact Bool.true_eq_false.mp hAll
    unfold upload_file_inner
    simp only [Option.getD_some]
    rw [hx]
    simp only [Bool.not_false, if_true]
    refine ⟨?_, ?_, ?_, ?_⟩ <;> first | rfl | trivial
  · intro cid h
    simp only [upload_file_inner] at h
    by_cases hx : is_hex_string (params.id.getD (make_id env.seed)) = true
    · rw [hx] at h
      simp only [Bool.not_true, Bool.false_eq_true, if_false] at h
      split at h
      · simp at h
      · split at h
        · simp at h
        · split at h
          · simp at h
          · split at h
            · simp at h
            · split at h
              · simp at h
              · split at h
                · simp at h
                · split at h
                  · simp at h
                  · simp only [Except.ok.injEq] at h
                    rw [← h]
                    exact hx
    · have hx2 : is_hex_string (params.id.getD (make_id env.seed)) = false := by
        simpa using hx
      rw [hx2] at h
      simp at h

/-- Witness for C6: the generated id has length 16, a concrete non-hex id is
rejected, and the id returned by a concrete successful upload passes the
format validation. -/
theorem content_id_format_enforced_holds :
    (make_id 255).length = 16 ∧
    (upload_file_inner stEmpty envDefault "ns" "g" ⟨some "zz!"⟩ []).result =
        .error ⟨BAD_REQUEST, "Invalid ID format, ID must be a hex string"⟩ ∧
    is_hex_string "0000000000000000" = true := by
  refine ⟨(content_id_format_enforced 255 stEmpty envDefault "ns" "g" "zz!"
      ⟨some "zz!"⟩ []).1.1, ?_, ?_⟩
  · exact ((content_id_format_enforced 255 stEmpty envDefault "ns" "g" "zz!"
      ⟨some "zz!"⟩ []).2.1 (by decide)).1
  · exact (content_id_format_enforced 0 stEmpty envDefault "ns" "g" "x"
      ⟨none⟩ filesOne).2.2 "0000000000000000" (by decide)

/-- C9: when the inner upload handler fails after a blob URL has been
published (the shared `url` is non-empty), the outer handler attempts to
delete exactly that blob before returning the error; on success it deletes
nothing. -/
theorem upload_cleanup_on_failure (st : ServerState) (env : UploadEnv)
    (ns eg : String) (params : UploadFileQueryParams)
    (files : List MultipartField) :
    ((upload_file st env ns eg params files).outcome.result.isOk = false →
      (upload_file st env ns eg params files).outcome.url ≠ "" →
      (upload_file st env ns eg params files).deleted =
        [(upload_file st env ns eg params files).outcome.url]) ∧
    ((upload_file st env ns eg params files).outcome.result.isOk = true →
      (upload_file st env ns eg params files).deleted = []) := by
  constructor
  · intro h1 h2
    unfold upload_file at h1 h2 ⊢
    simp only at h1 h2 ⊢
    rw [h1]
    simp [bne_iff_ne, h2]
  · intro h1
    unfold upload_file at h1 ⊢
    simp only at h1 ⊢
    rw [h1]
    simp

/-- Witness for C9: a concrete upload that fails on a second file field after
the first blob (`u1`) was written attempts to delete exactly `u1`. -/
theorem upload_cleanup_on_failure_holds :
    (upload_file stEmpty envDefault "ns" "g" ⟨none⟩ filesTwo).deleted =
      ["u1"] := by
  have h := (upload_cleanup_on_failure stEmpty envDefault "ns" "g" ⟨none⟩
    filesTwo).1 (by decide) (by decide)
  rw [h]
  rfl

end Indexify
